import Mathlib

/-!
Shallow embedding of the BCM2708 I2S S/PDIF output driver
(src/bcm2708-i2s-spdif-driver.c).

The S/PDIF double buffer is modelled at frame granularity: the C code
writes `SPDIF_FRAMESIZE` bytes per encoded frame, so byte offset
`o` corresponds to frame index `o / SPDIF_FRAMESIZE`.  The S/PDIF frame
encoder itself lives in spdif-encoder.c/.h, which are not part of the
sources here; it is modelled symbolically (see `spdif_encode_frame`): each
call consumes one stereo sample pair and advances the encoder state by
exactly one frame, and the buffer records, for each frame slot, the encoder
state and the sample pair from which that slot was encoded.  The PCM ring
buffer (`ss->dma_buffer.area`) is likewise modelled at frame granularity as
a map from frame index to the stereo sample pair stored there.
-/

/-- Modelled from the spec: `SPDIF_FRAMESIZE` comes from spdif-encoder.h,
which is not under src/; a frame is two 32-bit subframes, hence 8 bytes. -/
def SPDIF_FRAMESIZE : Nat := 8

/-- Buffer size in S/PDIF frames (`2*192`, line 185). -/
def SPDIF_BUFSIZE_FRAMES : Nat := 2 * 192

/-- Buffer size in bytes (line 186). -/
def SPDIF_BUFSIZE : Nat := SPDIF_BUFSIZE_FRAMES * SPDIF_FRAMESIZE

/-- Number of PCM periods (line 187). -/
def PCM_PERIODES : Nat := 8

/-- PCM buffer size in bytes (line 189). -/
def PCM_BUFSIZE : Nat := PCM_PERIODES * 192 * 24

/-- Output of one call of the frame encoder, recorded symbolically: the
encoder state at the moment of the call and the stereo sample pair that was
encoded into this frame slot. -/
structure EncodedFrame where
  encState : Nat
  sample : Int × Int
  deriving DecidableEq

/-- Modelled from the spec: the frame encoder of spdif-encoder.c (not under
src/) encodes one stereo sample pair into one S/PDIF frame and advances its
channel-status/biphase state by exactly one frame per call.  Its state is
modelled as a frame counter; the encoded frame records the state and the
sample pair. -/
def spdif_encode_frame (st : Nat) (pair : Int × Int) : EncodedFrame × Nat :=
  (⟨st, pair⟩, st + 1)

/-- Writing one frame at frame index `n` of the S/PDIF buffer. -/
def bufWrite (buf : Nat → EncodedFrame) (n : Nat) (f : EncodedFrame) :
    Nat → EncodedFrame :=
  fun j => if j = n then f else buf j

/-- The refill `for` loop of `bcm2708_i2s_dma_complete` (lines 457-459 and
465-469) and of `bcm2708_i2s_dmaengine_prepare_and_submit` (lines 493-496):
encode `k` frames taken from the source `src` into the buffer starting at
frame index `dst`, advancing the encoder state once per frame, exactly as
the C loop advances `src` by one PCM frame and `dst` by `SPDIF_FRAMESIZE`
bytes per iteration.  Returns the final encoder state and the buffer. -/
def fill_loop (st : Nat) (buf : Nat → EncodedFrame) (dst : Nat)
    (src : Nat → Int × Int) : Nat → Nat × (Nat → EncodedFrame)
  | 0 => (st, buf)
  | Nat.succ k =>
      let r := spdif_encode_frame st (src 0)
      fill_loop r.2 (bufWrite buf dst r.1) (dst + 1) (fun i => src (i + 1)) k

/-- Fields of `snd_pcm_substream`/`snd_pcm_runtime` that the driver reads:
buffer size and period size in PCM frames, and the PCM ring buffer
(`ss->dma_buffer.area`), at frame granularity. -/
structure snd_pcm_substream where
  buffer_size : Nat
  period_size : Nat
  dma_area : Nat → Int × Int

/-- The four sample-format encoder functions that `bcm2708_pcm_prepare`
installs into `dev->encode_frame` (lines 343-361). -/
inductive spdif_encode_fn
  | s16le
  | s24le
  | s24le_packed
  | s32le
  deriving DecidableEq

/-- ALSA sample formats distinguished by `bcm2708_pcm_prepare`; `other`
covers every remaining `SNDRV_PCM_FORMAT_*` code. -/
inductive snd_pcm_format
  | S16_LE
  | S20_LE
  | S20_3LE
  | S24_LE
  | S24_3LE
  | S32_LE
  | other (code : Nat)
  deriving DecidableEq

/-- Device state `struct bcm2708_i2s_dev` (lines 193-220), restricted to the
fields the streaming core reads and writes. -/
structure bcm2708_i2s_dev where
  encode_frame : Option spdif_encode_fn
  spdif : Nat
  ch_stat : List Nat
  spdif_buffer : Nat → EncodedFrame
  pcm_pointer : Nat
  ss : Option snd_pcm_substream
  period_frames : Nat
  silence : Nat
  i2s_dma_cookie : Int

/-- Line 452: byte offset of the part of the double buffer to fill, chosen
from the hardware-reported residue. -/
def refill_offset (residue : Nat) : Nat :=
  if residue ≤ SPDIF_BUFSIZE / 2 then 0 else SPDIF_BUFSIZE / 2

/-- The DMA completion callback `bcm2708_i2s_dma_complete` (lines 438-481).
`residue` is the `state.residue` reported by `dmaengine_tx_status`.  Returns
the new device state and the number of `snd_pcm_period_elapsed` calls made
(0 or 1).  The `atomic_inc_not_zero` of line 455 increments the silence
counter and takes the silence branch exactly when the counter was
nonzero. -/
def bcm2708_i2s_dma_complete (dev : bcm2708_i2s_dev) (residue : Nat) :
    bcm2708_i2s_dev × Nat :=
  match dev.encode_frame with
  | none => (dev, 0)
  | some _ =>
    let base := refill_offset residue / SPDIF_FRAMESIZE
    if dev.silence ≠ 0 then
      let r := fill_loop dev.spdif dev.spdif_buffer base
        (fun _ => ((0 : Int), (0 : Int))) (SPDIF_BUFSIZE_FRAMES / 2)
      ({ dev with
          silence := dev.silence + 1,
          spdif := r.1,
          spdif_buffer := r.2 }, 0)
    else
      match dev.ss with
      | none => (dev, 0)
      | some s =>
        let r := fill_loop dev.spdif dev.spdif_buffer base
          (fun i => s.dma_area (dev.pcm_pointer + i)) (SPDIF_BUFSIZE_FRAMES / 2)
        let p0 := dev.pcm_pointer + SPDIF_BUFSIZE_FRAMES / 2
        let p := if p0 ≥ s.buffer_size then p0 - s.buffer_size else p0
        let pf := dev.period_frames + SPDIF_BUFSIZE_FRAMES / 2
        if pf ≥ s.period_size then
          ({ dev with
              spdif := r.1,
              spdif_buffer := r.2,
              pcm_pointer := p,
              period_frames := pf - s.period_size }, 1)
        else
          ({ dev with
              spdif := r.1,
              spdif_buffer := r.2,
              pcm_pointer := p,
              period_frames := pf }, 0)

/-- Result of `bcm2708_i2s_dmaengine_prepare_and_submit`: the new device
state, the C return value, and whether a descriptor was actually submitted
to the DMA engine. -/
structure SubmitResult where
  dev : bcm2708_i2s_dev
  ret : Int
  submitted : Bool

/-- Function `bcm2708_i2s_dmaengine_prepare_and_submit` (lines 483-514).
`desc_ok` models whether `dmaengine_prep_dma_cyclic` returns a descriptor
and `new_cookie` models the cookie that `dmaengine_submit` returns. -/
def bcm2708_i2s_dmaengine_prepare_and_submit (dev : bcm2708_i2s_dev)
    (desc_ok : Bool) (new_cookie : Int) : SubmitResult :=
  if dev.i2s_dma_cookie > 0 then
    ⟨dev, 0, false⟩
  else
    let dev1 :=
      match dev.encode_frame with
      | some _ =>
        let r := fill_loop dev.spdif dev.spdif_buffer 0
          (fun _ => ((0 : Int), (0 : Int))) SPDIF_BUFSIZE_FRAMES
        { dev with spdif := r.1, spdif_buffer := r.2 }
      | none => dev
    if desc_ok then
      ⟨{ dev1 with i2s_dma_cookie := new_cookie }, 0, true⟩
    else
      ⟨dev1, -12, false⟩

/-- Trigger commands distinguished by `bcm2708_pcm_trigger`; `other` covers
every remaining `SNDRV_PCM_TRIGGER_*` code. -/
inductive trigger_cmd
  | START
  | STOP
  | other (cmd : Nat)
  deriving DecidableEq

/-- Result of `bcm2708_pcm_trigger`: the new device state, the C return
value, the prior silence-counter value obtained by `atomic_xchg` on START
(none for the other commands), and whether `dmaengine_terminate_all` was
called. -/
structure TriggerResult where
  dev : bcm2708_i2s_dev
  ret : Int
  silence_prev : Option Nat
  terminated : Bool

/-- Function `bcm2708_pcm_trigger` (lines 386-415).  On START it resets the
position counters, atomically exchanges the silence counter with 0
(recording the prior value) and submits the cyclic transfer; on STOP it
terminates the DMA transfer and clears the cookie; any other command
returns `-EINVAL`. -/
def bcm2708_pcm_trigger (dev : bcm2708_i2s_dev) (cmd : trigger_cmd)
    (desc_ok : Bool) (new_cookie : Int) : TriggerResult :=
  match cmd with
  | .START =>
    let prev := dev.silence
    let dev1 := { dev with pcm_pointer := 0, period_frames := 0, silence := 0 }
    let s := bcm2708_i2s_dmaengine_prepare_and_submit dev1 desc_ok new_cookie
    ⟨s.dev, 0, some prev, false⟩
  | .STOP =>
    ⟨{ dev with i2s_dma_cookie := 0 }, 0, none, true⟩
  | .other _ => ⟨dev, -22, none, false⟩

/-- Modelled from the spec: channel-status constants from spdif-encoder.h,
which is not under src/.  The spec only requires the byte-3 sampling-rate
codes to be pairwise distinct per supported rate; the IEC 60958-3 values
are used. -/
def SPDIF_CS3_44100 : Nat := 0x00

def SPDIF_CS3_48000 : Nat := 0x02

def SPDIF_CS3_88200 : Nat := 0x08

def SPDIF_CS3_96000 : Nat := 0x0a

def SPDIF_CS3_176400 : Nat := 0x0c

def SPDIF_CS3_192000 : Nat := 0x0e

/-- Modelled from the spec: channel-status byte-0/1/4 constants from
spdif-encoder.h (not under src/); their exact values are not load-bearing
for any claim. -/
def SPDIF_CS0_NOT_COPYRIGHT : Nat := 0x04

def SPDIF_CS1_DDCONV : Nat := 0x02

def SPDIF_CS1_ORIGINAL : Nat := 0x80

def SPDIF_CS4_WORDLEN_UNSPEC : Nat := 0x00

def SPDIF_CS4_WORDLEN_20_16 : Nat := 0x02

def SPDIF_CS4_WORDLEN_24_20 : Nat := 0x0a

def SPDIF_CS4_MAX_WORDLEN_24 : Nat := 0x01

/-- The `CASE_RATE` switch of `bcm2708_pcm_prepare` (lines 332-342):
channel-status byte 3 for the sampling rate, or none for an unsupported
rate (the `-EINVAL` path). -/
def cs3_of_rate (rate : Nat) : Option Nat :=
  if rate = 44100 then some SPDIF_CS3_44100
  else if rate = 48000 then some SPDIF_CS3_48000
  else if rate = 88200 then some SPDIF_CS3_88200
  else if rate = 96000 then some SPDIF_CS3_96000
  else if rate = 176400 then some SPDIF_CS3_176400
  else if rate = 192000 then some SPDIF_CS3_192000
  else none

/-- The format switch of `bcm2708_pcm_prepare` (lines 343-361): the encoder
function to install, or none for an unsupported format (the `-EINVAL`
path). -/
def encode_fn_of_format : snd_pcm_format → Option spdif_encode_fn
  | .S16_LE => some .s16le
  | .S20_LE => some .s24le
  | .S24_LE => some .s24le
  | .S20_3LE => some .s24le_packed
  | .S24_3LE => some .s24le_packed
  | .S32_LE => some .s32le
  | .other _ => none

/-- The sample-bits switch of `bcm2708_pcm_prepare` (lines 362-373):
channel-status byte 4 (word length); the default case keeps the initial
`SPDIF_CS4_WORDLEN_UNSPEC`. -/
def cs4_of_sample_bits (sample_bits : Nat) : Nat :=
  if sample_bits = 16 then SPDIF_CS4_WORDLEN_20_16
  else if sample_bits = 20 then SPDIF_CS4_WORDLEN_24_20
  else if sample_bits = 24 ∨ sample_bits = 32 then
    SPDIF_CS4_MAX_WORDLEN_24 ||| SPDIF_CS4_WORDLEN_24_20
  else SPDIF_CS4_WORDLEN_UNSPEC

/-- Function `bcm2708_pcm_prepare` (lines 315-384).  An unsupported rate or
format returns `-EINVAL` before any device state is changed.  On success it
installs the encoder function and the five channel-status bytes, performs
`atomic_cmpxchg(&silence, 0, 1)` and calls
`bcm2708_i2s_dmaengine_prepare_and_submit` (whose return value the C code
discards), returning 0. -/
def bcm2708_pcm_prepare (dev : bcm2708_i2s_dev) (rate : Nat)
    (format : snd_pcm_format) (sample_bits : Nat)
    (desc_ok : Bool) (new_cookie : Int) : bcm2708_i2s_dev × Int :=
  match cs3_of_rate rate with
  | none => (dev, -22)
  | some cs3 =>
    match encode_fn_of_format format with
    | none => (dev, -22)
    | some f =>
      let ch_stat : List Nat :=
        [SPDIF_CS0_NOT_COPYRIGHT, SPDIF_CS1_DDCONV ||| SPDIF_CS1_ORIGINAL,
         0, cs3, cs4_of_sample_bits sample_bits]
      let dev1 := { dev with encode_frame := some f, ch_stat := ch_stat }
      let dev2 := if dev1.silence = 0 then { dev1 with silence := 1 } else dev1
      ((bcm2708_i2s_dmaengine_prepare_and_submit dev2 desc_ok new_cookie).dev, 0)

/-- Characterization of the refill loop: frame slot `j` of the resulting
buffer holds the frame encoded from `src (j - dst)` with encoder state
`st + (j - dst)` when `j` lies in the written window `[dst, dst + k)`, and
is untouched otherwise. -/
theorem fill_loop_buf (st : Nat) (buf : Nat → EncodedFrame) (dst : Nat)
    (src : Nat → Int × Int) (k : Nat) (j : Nat) :
    (fill_loop st buf dst src k).2 j =
      if dst ≤ j ∧ j < dst + k then ⟨st + (j - dst), src (j - dst)⟩
      else buf j := by
  induction k generalizing st buf dst src with
  | zero =>
    have h : ¬(dst ≤ j ∧ j < dst + 0) := by omega
    rw [if_neg h]
    simp [fill_loop]
  | succ k ih =>
    simp only [fill_loop, spdif_encode_frame]
    rw [ih]
    by_cases hj : j = dst
    · have h1 : ¬(dst + 1 ≤ j ∧ j < dst + 1 + k) := by omega
      have h2 : dst ≤ j ∧ j < dst + (k + 1) := by omega
      rw [if_neg h1, if_pos h2]
      simp [bufWrite, hj]
    · by_cases h3 : dst + 1 ≤ j ∧ j < dst + 1 + k
      · have h4 : dst ≤ j ∧ j < dst + (k + 1) := by omega
        have h5 : j - (dst + 1) + 1 = j - dst := by omega
        have h6 : st + 1 + (j - (dst + 1)) = st + (j - dst) := by omega
        rw [if_pos h3, if_pos h4]
        simp only [h5, h6]
      · have h4 : ¬(dst ≤ j ∧ j < dst + (k + 1)) := by omega
        rw [if_neg h3, if_neg h4]
        simp [bufWrite, hj]

/-- The refill loop advances the encoder state by one frame per iteration. -/
theorem fill_loop_state (st : Nat) (buf : Nat → EncodedFrame) (dst : Nat)
    (src : Nat → Int × Int) (k : Nat) :
    (fill_loop st buf dst src k).1 = st + k := by
  induction k generalizing st buf dst src with
  | zero => simp [fill_loop]
  | succ k ih =>
    simp only [fill_loop, spdif_encode_frame]
    rw [ih]
    omega

/-- Unfolding the completion callback in the silence branch (counter was
nonzero): the counter is incremented, the selected half is filled with
frames encoded from the zero sample pair, and nothing else changes. -/
theorem dma_complete_silence (dev : bcm2708_i2s_dev) (residue : Nat)
    (f : spdif_encode_fn) (henc : dev.encode_frame = some f)
    (hsil : dev.silence ≠ 0) :
    bcm2708_i2s_dma_complete dev residue =
      ({ dev with
          silence := dev.silence + 1,
          spdif := (fill_loop dev.spdif dev.spdif_buffer
            (refill_offset residue / SPDIF_FRAMESIZE)
            (fun _ => ((0 : Int), (0 : Int))) (SPDIF_BUFSIZE_FRAMES / 2)).1,
          spdif_buffer := (fill_loop dev.spdif dev.spdif_buffer
            (refill_offset residue / SPDIF_FRAMESIZE)
            (fun _ => ((0 : Int), (0 : Int))) (SPDIF_BUFSIZE_FRAMES / 2)).2 },
        0) := by
  simp only [bcm2708_i2s_dma_complete, henc]
  rw [if_pos hsil]

/-- Unfolding the completion callback in the PCM branch (counter zero, a
substream open): the selected half is filled with frames encoded from the
ring buffer starting at `pcm_pointer`, the pointer advances with a single
conditional wrap, and the period counter is advanced with a single
conditional subtraction and at most one period-elapsed notification. -/
theorem dma_complete_pcm (dev : bcm2708_i2s_dev) (residue : Nat)
    (f : spdif_encode_fn) (s : snd_pcm_substream)
    (henc : dev.encode_frame = some f) (hsil : dev.silence = 0)
    (hss : dev.ss = some s) :
    bcm2708_i2s_dma_complete dev residue =
      ({ dev with
          spdif := (fill_loop dev.spdif dev.spdif_buffer
            (refill_offset residue / SPDIF_FRAMESIZE)
            (fun i => s.dma_area (dev.pcm_pointer + i))
            (SPDIF_BUFSIZE_FRAMES / 2)).1,
          spdif_buffer := (fill_loop dev.spdif dev.spdif_buffer
            (refill_offset residue / SPDIF_FRAMESIZE)
            (fun i => s.dma_area (dev.pcm_pointer + i))
            (SPDIF_BUFSIZE_FRAMES / 2)).2,
          pcm_pointer :=
            if dev.pcm_pointer + SPDIF_BUFSIZE_FRAMES / 2 ≥ s.buffer_size then
              dev.pcm_pointer + SPDIF_BUFSIZE_FRAMES / 2 - s.buffer_size
            else dev.pcm_pointer + SPDIF_BUFSIZE_FRAMES / 2,
          period_frames :=
            if dev.period_frames + SPDIF_BUFSIZE_FRAMES / 2 ≥ s.period_size then
              dev.period_frames + SPDIF_BUFSIZE_FRAMES / 2 - s.period_size
            else dev.period_frames + SPDIF_BUFSIZE_FRAMES / 2 },
        if dev.period_frames + SPDIF_BUFSIZE_FRAMES / 2 ≥ s.period_size then 1
        else 0) := by
  simp only [bcm2708_i2s_dma_complete, henc, hss]
  rw [if_neg (by simp [hsil])]
  by_cases hpf : dev.period_frames + SPDIF_BUFSIZE_FRAMES / 2 ≥ s.period_size
  · simp only [if_pos hpf]
  · simp only [if_neg hpf]

/-- The conditional subtraction after the pointer advance (lines 471-473 and
476-479) computes the value modulo the buffer length whenever the counter
was in range and the advance is at most one buffer length. -/
theorem wrap_eq_mod (p n bs : Nat) (h1 : p < bs) (h2 : n ≤ bs) :
    (if p + n ≥ bs then p + n - bs else p + n) = (p + n) % bs := by
  by_cases h : p + n ≥ bs
  · rw [if_pos h, Nat.mod_eq_sub_mod h, Nat.mod_eq_of_lt (by omega)]
  · rw [if_neg h, Nat.mod_eq_of_lt (by omega)]

/-- When the period counter is in range and the refill size is at most the
period size, the number of period boundaries crossed by one refill is 0 or
1 according to the threshold test of line 476. -/
theorem crossing_count (pf n ps : Nat) (h1 : pf < ps) (h2 : n ≤ ps) :
    (pf + n) / ps = if pf + n ≥ ps then 1 else 0 := by
  by_cases h : pf + n ≥ ps
  · rw [if_pos h]
    exact Nat.div_eq_of_lt_le (by omega) (by omega)
  · rw [if_neg h]
    exact Nat.div_eq_of_lt (by omega)

/-- `bcm2708_i2s_dmaengine_prepare_and_submit` never changes the PCM
pointer, the period counter, the silence counter, the substream or the
installed encoder function. -/
theorem prepare_and_submit_preserves (dev : bcm2708_i2s_dev) (desc_ok : Bool)
    (new_cookie : Int) :
    (bcm2708_i2s_dmaengine_prepare_and_submit dev desc_ok new_cookie).dev.pcm_pointer
        = dev.pcm_pointer ∧
    (bcm2708_i2s_dmaengine_prepare_and_submit dev desc_ok new_cookie).dev.period_frames
        = dev.period_frames ∧
    (bcm2708_i2s_dmaengine_prepare_and_submit dev desc_ok new_cookie).dev.silence
        = dev.silence ∧
    (bcm2708_i2s_dmaengine_prepare_and_submit dev desc_ok new_cookie).dev.ss
        = dev.ss ∧
    (bcm2708_i2s_dmaengine_prepare_and_submit dev desc_ok new_cookie).dev.encode_frame
        = dev.encode_frame := by
  unfold bcm2708_i2s_dmaengine_prepare_and_submit
  by_cases h : dev.i2s_dma_cookie > 0
  · rw [if_pos h]
    exact ⟨rfl, rfl, rfl, rfl, rfl⟩
  · rw [if_neg h]
    cases henc : dev.encode_frame <;> cases desc_ok <;> simp [henc]

/-- An all-zero S/PDIF buffer used by the concrete example states. -/
def bufZero : Nat → EncodedFrame := fun _ => ⟨0, (0, 0)⟩

/-- A substream with the geometry the driver negotiates for S16_LE:
`PCM_BUFSIZE` bytes = 9216 frames, period 1152 frames, and a constant
sample pattern in the ring buffer. -/
def ssDemo : snd_pcm_substream := ⟨9216, 1152, fun _ => (5, -5)⟩

/-- A substream with a period size smaller than the refill size; not
reachable through the driver's fixed hardware parameters, but a legal input
of the completion callback as a function. -/
def ssShort : snd_pcm_substream := ⟨9216, 96, fun _ => (1, 1)⟩

/-- Device state with the silence counter armed (as after prepare without a
subsequent start). -/
def devSil : bcm2708_i2s_dev := ⟨some .s16le, 5, [], bufZero, 7, none, 0, 2, 5⟩

/-- Device state streaming live audio, with the PCM pointer near the end of
the ring so that the advance wraps. -/
def devLive : bcm2708_i2s_dev :=
  ⟨some .s16le, 4, [], bufZero, 9120, some ssDemo, 0, 0, 5⟩

/-- Device state streaming live audio with the period counter close to the
period boundary. -/
def devLate : bcm2708_i2s_dev :=
  ⟨some .s16le, 0, [], bufZero, 0, some ssDemo, 1000, 0, 5⟩

/-- Device state streaming into the short-period substream. -/
def devShort : bcm2708_i2s_dev :=
  ⟨some .s16le, 0, [], bufZero, 0, some ssShort, 0, 0, 5⟩

/-- Device state before any successful prepare: no encoder installed. -/
def devNoEnc : bcm2708_i2s_dev := ⟨none, 3, [], bufZero, 11, some ssDemo, 7, 0, 5⟩

/-- Idle device state: silence counter 0, no pending cookie. -/
def devIdle : bcm2708_i2s_dev := ⟨some .s16le, 0, [], bufZero, 0, some ssDemo, 0, 0, 0⟩

/-- C2: for every completion-callback invocation, the buffer half chosen
for refill is half 0 (offset 0) exactly when the hardware-reported residue
is at most `SPDIF_BUFSIZE/2` bytes, and otherwise half 1 (offset
`SPDIF_BUFSIZE/2`); in frame units, the callback fills from frame index 0
or `SPDIF_BUFSIZE_FRAMES/2` accordingly. -/
theorem claim_C2 (residue : Nat) :
    (refill_offset residue = 0 ↔ residue ≤ SPDIF_BUFSIZE / 2) ∧
    (refill_offset residue = SPDIF_BUFSIZE / 2 ↔
      ¬ residue ≤ SPDIF_BUFSIZE / 2) ∧
    refill_offset residue / SPDIF_FRAMESIZE =
      (if residue ≤ SPDIF_BUFSIZE / 2 then 0 else SPDIF_BUFSIZE_FRAMES / 2) := by
  refine ⟨?_, ?_, ?_⟩ <;> unfold refill_offset <;>
      by_cases h : residue ≤ SPDIF_BUFSIZE / 2
  · simp [h]
  · simp [h, SPDIF_BUFSIZE, SPDIF_BUFSIZE_FRAMES, SPDIF_FRAMESIZE]
  · simp [h, SPDIF_BUFSIZE, SPDIF_BUFSIZE_FRAMES, SPDIF_FRAMESIZE]
  · simp [h]
  · rw [if_pos h, if_pos h]
    decide
  · rw [if_neg h, if_neg h]
    decide

/-- C5: a stream-start trigger sets `pcm_pointer` to 0, sets
`period_frames` to 0, and atomically exchanges the silence counter to 0,
obtaining the counter's prior value. -/
theorem claim_C5 (dev : bcm2708_i2s_dev) (desc_ok : Bool) (new_cookie : Int) :
    (bcm2708_pcm_trigger dev .START desc_ok new_cookie).dev.pcm_pointer = 0 ∧
    (bcm2708_pcm_trigger dev .START desc_ok new_cookie).dev.period_frames = 0 ∧
    (bcm2708_pcm_trigger dev .START desc_ok new_cookie).dev.silence = 0 ∧
    (bcm2708_pcm_trigger dev .START desc_ok new_cookie).silence_prev
      = some dev.silence := by
  simp only [bcm2708_pcm_trigger]
  refine ⟨?_, ?_, ?_, trivial⟩
  · exact (prepare_and_submit_preserves _ desc_ok new_cookie).1
  · exact (prepare_and_submit_preserves _ desc_ok new_cookie).2.1
  · exact (prepare_and_submit_preserves _ desc_ok new_cookie).2.2.1

/-- C9: if a DMA transfer is already submitted (`i2s_dma_cookie > 0`),
`bcm2708_i2s_dmaengine_prepare_and_submit` returns 0 immediately without
writing the S/PDIF buffer and without submitting a new descriptor. -/
theorem claim_C9 (dev : bcm2708_i2s_dev) (desc_ok : Bool) (new_cookie : Int)
    (h : 0 < dev.i2s_dma_cookie) :
    bcm2708_i2s_dmaengine_prepare_and_submit dev desc_ok new_cookie
      = ⟨dev, 0, false⟩ := by
  unfold bcm2708_i2s_dmaengine_prepare_and_submit
  rw [if_pos h]

/-- Witness for C9 at a device with a pending cookie. -/
theorem claim_C9_witness :
    (0 : Int) < devSil.i2s_dma_cookie ∧
    bcm2708_i2s_dmaengine_prepare_and_submit devSil true 9 = ⟨devSil, 0, false⟩ :=
  ⟨by decide, claim_C9 devSil true 9 (by decide)⟩

/-- C10: if the completion callback runs before any successful prepare
(`encode_frame` is NULL), it returns immediately, leaving the whole device
state — S/PDIF buffer, `pcm_pointer`, `period_frames` and the silence
counter — unchanged, and emitting no period-elapsed notification. -/
theorem claim_C10 (dev : bcm2708_i2s_dev) (residue : Nat)
    (h : dev.encode_frame = none) :
    bcm2708_i2s_dma_complete dev residue = (dev, 0) := by
  simp only [bcm2708_i2s_dma_complete, h]

/-- Witness for C10 at a device with no encoder installed. -/
theorem claim_C10_witness :
    devNoEnc.encode_frame = none ∧
    bcm2708_i2s_dma_complete devNoEnc 100 = (devNoEnc, 0) :=
  ⟨rfl, claim_C10 devNoEnc 100 rfl⟩

/-- C1: for every completion-callback invocation after a successful prepare
(encoder configured): if the silence counter is nonzero, the selected
buffer half is filled with `SPDIF_BUFSIZE_FRAMES/2` frames encoded from the
zero stereo sample pair and `pcm_pointer` is unchanged; if the silence
counter is zero and a substream is open, the half is filled with
`SPDIF_BUFSIZE_FRAMES/2` frames encoded from consecutive stereo sample
pairs read from the PCM ring buffer starting at `pcm_pointer`, and
`pcm_pointer` advances by `SPDIF_BUFSIZE_FRAMES/2` frames, wrapping modulo
the PCM buffer size in frames. -/
theorem claim_C1 (dev : bcm2708_i2s_dev) (residue : Nat) (f : spdif_encode_fn)
    (henc : dev.encode_frame = some f) :
    (dev.silence ≠ 0 →
      (bcm2708_i2s_dma_complete dev residue).1.pcm_pointer = dev.pcm_pointer ∧
      ∀ i, i < SPDIF_BUFSIZE_FRAMES / 2 →
        (bcm2708_i2s_dma_complete dev residue).1.spdif_buffer
            (refill_offset residue / SPDIF_FRAMESIZE + i) =
          ⟨dev.spdif + i, ((0 : Int), (0 : Int))⟩) ∧
    (∀ s, dev.silence = 0 → dev.ss = some s →
      (∀ i, i < SPDIF_BUFSIZE_FRAMES / 2 →
        (bcm2708_i2s_dma_complete dev residue).1.spdif_buffer
            (refill_offset residue / SPDIF_FRAMESIZE + i) =
          ⟨dev.spdif + i, s.dma_area (dev.pcm_pointer + i)⟩) ∧
      (dev.pcm_pointer < s.buffer_size →
        SPDIF_BUFSIZE_FRAMES / 2 ≤ s.buffer_size →
        (bcm2708_i2s_dma_complete dev residue).1.pcm_pointer =
          (dev.pcm_pointer + SPDIF_BUFSIZE_FRAMES / 2) % s.buffer_size)) := by
  constructor
  · intro hsil
    rw [dma_complete_silence dev residue f henc hsil]
    refine ⟨rfl, ?_⟩
    intro i hi
    have hb := fill_loop_buf dev.spdif dev.spdif_buffer
      (refill_offset residue / SPDIF_FRAMESIZE)
      (fun _ => ((0 : Int), (0 : Int))) (SPDIF_BUFSIZE_FRAMES / 2)
      (refill_offset residue / SPDIF_FRAMESIZE + i)
    rw [if_pos (by omega)] at hb
    simpa [Nat.add_sub_cancel_left] using hb
  · intro s hsil hss
    rw [dma_complete_pcm dev residue f s henc hsil hss]
    constructor
    · intro i hi
      have hb := fill_loop_buf dev.spdif dev.spdif_buffer
        (refill_offset residue / SPDIF_FRAMESIZE)
        (fun i => s.dma_area (dev.pcm_pointer + i)) (SPDIF_BUFSIZE_FRAMES / 2)
        (refill_offset residue / SPDIF_FRAMESIZE + i)
      rw [if_pos (by omega)] at hb
      simpa [Nat.add_sub_cancel_left] using hb
    · intro hlt hle
      exact wrap_eq_mod dev.pcm_pointer (SPDIF_BUFSIZE_FRAMES / 2)
        s.buffer_size hlt hle

/-- Witness for C1: a silence-cycle device and a live device, with the
buffer contents and the wrapped pointer evaluated at concrete indices. -/
theorem claim_C1_witness :
    devSil.encode_frame = some .s16le ∧ devSil.silence ≠ 0 ∧
    (bcm2708_i2s_dma_complete devSil 0).1.pcm_pointer = devSil.pcm_pointer ∧
    (bcm2708_i2s_dma_complete devSil 0).1.spdif_buffer
        (refill_offset 0 / SPDIF_FRAMESIZE + 3) =
      ⟨devSil.spdif + 3, ((0 : Int), (0 : Int))⟩ ∧
    devLive.silence = 0 ∧ devLive.ss = some ssDemo ∧
    (bcm2708_i2s_dma_complete devLive 2000).1.spdif_buffer
        (refill_offset 2000 / SPDIF_FRAMESIZE + 5) =
      ⟨devLive.spdif + 5, ssDemo.dma_area (devLive.pcm_pointer + 5)⟩ ∧
    (bcm2708_i2s_dma_complete devLive 2000).1.pcm_pointer =
      (devLive.pcm_pointer + SPDIF_BUFSIZE_FRAMES / 2) % ssDemo.buffer_size := by
  refine ⟨rfl, by decide, ?_, ?_, rfl, rfl, ?_, ?_⟩
  · exact ((claim_C1 devSil 0 .s16le rfl).1 (by decide)).1
  · exact ((claim_C1 devSil 0 .s16le rfl).1 (by decide)).2 3 (by decide)
  · exact ((claim_C1 devLive 2000 .s16le rfl).2 ssDemo rfl rfl).1 5 (by decide)
  · exact ((claim_C1 devLive 2000 .s16le rfl).2 ssDemo rfl rfl).2
      (by decide) (by decide)

/-- C8: every refill performed by the completion callback writes only
frames within the selected half
`[offset, offset + SPDIF_BUFSIZE/2)` of the S/PDIF double buffer — every
frame of the other half is unchanged.  (The refill is a plain synchronous
loop inside the callback; the model computes it before the callback's
result is returned.) -/
theorem claim_C8 (dev : bcm2708_i2s_dev) (residue : Nat) (j : Nat)
    (hj : j < refill_offset residue / SPDIF_FRAMESIZE ∨
          refill_offset residue / SPDIF_FRAMESIZE + SPDIF_BUFSIZE_FRAMES / 2 ≤ j) :
    (bcm2708_i2s_dma_complete dev residue).1.spdif_buffer j
      = dev.spdif_buffer j := by
  cases henc : dev.encode_frame with
  | none => simp [bcm2708_i2s_dma_complete, henc]
  | some f =>
    by_cases hsil : dev.silence = 0
    · cases hss : dev.ss with
      | none => simp [bcm2708_i2s_dma_complete, henc, hss, hsil]
      | some s =>
        rw [dma_complete_pcm dev residue f s henc hsil hss]
        have hb := fill_loop_buf dev.spdif dev.spdif_buffer
          (refill_offset residue / SPDIF_FRAMESIZE)
          (fun i => s.dma_area (dev.pcm_pointer + i))
          (SPDIF_BUFSIZE_FRAMES / 2) j
        rw [if_neg (by omega)] at hb
        exact hb
    · rw [dma_complete_silence dev residue f henc hsil]
      have hb := fill_loop_buf dev.spdif dev.spdif_buffer
        (refill_offset residue / SPDIF_FRAMESIZE)
        (fun _ => ((0 : Int), (0 : Int))) (SPDIF_BUFSIZE_FRAMES / 2) j
      rw [if_neg (by omega)] at hb
      exact hb

/-- Witness for C8: a frame of the untouched half is unchanged by a
concrete refill. -/
theorem claim_C8_witness :
    (200 < refill_offset 0 / SPDIF_FRAMESIZE ∨
      refill_offset 0 / SPDIF_FRAMESIZE + SPDIF_BUFSIZE_FRAMES / 2 ≤ 200) ∧
    (bcm2708_i2s_dma_complete devSil 0).1.spdif_buffer 200
      = devSil.spdif_buffer 200 :=
  ⟨Or.inr (by decide), claim_C8 devSil 0 200 (Or.inr (by decide))⟩

/-- C3 (amended): for every refill that reads PCM data, `period_frames`
advances by the number of frames filled with a single conditional
subtraction of the period size, and at most one period-elapsed notification
is emitted per refill; whenever the period counter is in range and the
period size is at least the refill size (`SPDIF_BUFSIZE_FRAMES/2`, which
the driver's fixed period geometry guarantees), the notification count
equals the exact number of threshold crossings, so a notification is
emitted exactly once per crossing and none is skipped. -/
theorem claim_C3 (dev : bcm2708_i2s_dev) (residue : Nat)
    (f : spdif_encode_fn) (s : snd_pcm_substream)
    (henc : dev.encode_frame = some f) (hsil : dev.silence = 0)
    (hss : dev.ss = some s)
    (hpf : dev.period_frames < s.period_size)
    (hps : SPDIF_BUFSIZE_FRAMES / 2 ≤ s.period_size) :
    (bcm2708_i2s_dma_complete dev residue).1.period_frames =
      (dev.period_frames + SPDIF_BUFSIZE_FRAMES / 2) % s.period_size ∧
    (bcm2708_i2s_dma_complete dev residue).2 =
      (dev.period_frames + SPDIF_BUFSIZE_FRAMES / 2) / s.period_size := by
  rw [dma_complete_pcm dev residue f s henc hsil hss]
  constructor
  · exact wrap_eq_mod dev.period_frames (SPDIF_BUFSIZE_FRAMES / 2)
      s.period_size hpf hps
  · exact (crossing_count dev.period_frames (SPDIF_BUFSIZE_FRAMES / 2)
      s.period_size hpf hps).symm

/-- Witness for C3 at a device whose period counter crosses the boundary in
this refill. -/
theorem claim_C3_witness :
    devLate.encode_frame = some .s16le ∧ devLate.silence = 0 ∧
    devLate.ss = some ssDemo ∧
    devLate.period_frames < ssDemo.period_size ∧
    SPDIF_BUFSIZE_FRAMES / 2 ≤ ssDemo.period_size ∧
    (bcm2708_i2s_dma_complete devLate 0).1.period_frames =
      (devLate.period_frames + SPDIF_BUFSIZE_FRAMES / 2) % ssDemo.period_size ∧
    (bcm2708_i2s_dma_complete devLate 0).2 =
      (devLate.period_frames + SPDIF_BUFSIZE_FRAMES / 2) / ssDemo.period_size := by
  refine ⟨rfl, rfl, rfl, by decide, by decide, ?_, ?_⟩
  · exact (claim_C3 devLate 0 .s16le ssDemo rfl rfl rfl (by decide) (by decide)).1
  · exact (claim_C3 devLate 0 .s16le ssDemo rfl rfl rfl (by decide) (by decide)).2

/-- Counterexample to C3 as stated: with a period size of 96 frames
(smaller than the refill size of 192 frames), one refill crosses two period
boundaries, but the callback's single `if` (line 476) emits only one
notification and subtracts the period size only once, leaving the counter
at 96 instead of 0 — a crossing is skipped when more than one period's
worth of frames is filled in a single refill. -/
theorem claim_C3_counterexample :
    (devShort.period_frames + SPDIF_BUFSIZE_FRAMES / 2) / ssShort.period_size
        = 2 ∧
    (bcm2708_i2s_dma_complete devShort 0).2 = 1 ∧
    (bcm2708_i2s_dma_complete devShort 0).1.period_frames = 96 :=
  ⟨rfl, rfl, rfl⟩

/-- C4 (amended): a stream-stop trigger terminates the DMA transfer and
clears the cookie, so the hardware delivers no further completion
notifications for it; a completion callback that nevertheless runs after
the substream has been closed (`ss` NULL) emits no period-elapsed
notification and dereferences no stream state: it leaves `pcm_pointer` and
`period_frames` unchanged, is a no-op when the silence counter is zero, and
performs a pure silence fill when the counter is nonzero. -/
theorem claim_C4 (dev : bcm2708_i2s_dev) (residue : Nat) (desc_ok : Bool)
    (new_cookie : Int) (hss : dev.ss = none) :
    (bcm2708_pcm_trigger dev .STOP desc_ok new_cookie).terminated = true ∧
    (bcm2708_pcm_trigger dev .STOP desc_ok new_cookie).dev.i2s_dma_cookie = 0 ∧
    (bcm2708_i2s_dma_complete dev residue).2 = 0 ∧
    (bcm2708_i2s_dma_complete dev residue).1.pcm_pointer = dev.pcm_pointer ∧
    (bcm2708_i2s_dma_complete dev residue).1.period_frames
        = dev.period_frames ∧
    (dev.silence = 0 → bcm2708_i2s_dma_complete dev residue = (dev, 0)) ∧
    (∀ f, dev.encode_frame = some f → dev.silence ≠ 0 →
      ∀ i, i < SPDIF_BUFSIZE_FRAMES / 2 →
        (bcm2708_i2s_dma_complete dev residue).1.spdif_buffer
            (refill_offset residue / SPDIF_FRAMESIZE + i) =
          ⟨dev.spdif + i, ((0 : Int), (0 : Int))⟩) := by
  have hcb : ∀ hyp : dev.silence = 0,
      bcm2708_i2s_dma_complete dev residue = (dev, 0) := by
    intro h0
    cases henc : dev.encode_frame with
    | none => simp [bcm2708_i2s_dma_complete, henc]
    | some f => simp [bcm2708_i2s_dma_complete, henc, h0, hss]
  refine ⟨rfl, rfl, ?_, ?_, ?_, hcb, ?_⟩
  · by_cases h0 : dev.silence = 0
    · rw [hcb h0]
    · cases henc : dev.encode_frame with
      | none => simp [bcm2708_i2s_dma_complete, henc]
      | some f => rw [dma_complete_silence dev residue f henc h0]
  · by_cases h0 : dev.silence = 0
    · rw [hcb h0]
    · cases henc : dev.encode_frame with
      | none => simp [bcm2708_i2s_dma_complete, henc]
      | some f => rw [dma_complete_silence dev residue f henc h0]
  · by_cases h0 : dev.silence = 0
    · rw [hcb h0]
    · cases henc : dev.encode_frame with
      | none => simp [bcm2708_i2s_dma_complete, henc]
      | some f => rw [dma_complete_silence dev residue f henc h0]
  · intro f henc h0 i hi
    rw [dma_complete_silence dev residue f henc h0]
    have hb := fill_loop_buf dev.spdif dev.spdif_buffer
      (refill_offset residue / SPDIF_FRAMESIZE)
      (fun _ => ((0 : Int), (0 : Int))) (SPDIF_BUFSIZE_FRAMES / 2)
      (refill_offset residue / SPDIF_FRAMESIZE + i)
    rw [if_pos (by omega)] at hb
    simpa [Nat.add_sub_cancel_left] using hb

/-- Witness for C4 at a closed-substream device with the silence counter
armed and zero respectively. -/
theorem claim_C4_witness :
    devSil.ss = none ∧
    (bcm2708_pcm_trigger devSil .STOP true 0).terminated = true ∧
    (bcm2708_pcm_trigger devSil .STOP true 0).dev.i2s_dma_cookie = 0 ∧
    (bcm2708_i2s_dma_complete devSil 0).2 = 0 ∧
    (bcm2708_i2s_dma_complete devSil 0).1.pcm_pointer = devSil.pcm_pointer ∧
    (bcm2708_i2s_dma_complete devSil 0).1.spdif_buffer
        (refill_offset 0 / SPDIF_FRAMESIZE + 7) =
      ⟨devSil.spdif + 7, ((0 : Int), (0 : Int))⟩ := by
  refine ⟨rfl, ?_, ?_, ?_, ?_, ?_⟩
  · exact (claim_C4 devSil 0 true 0 rfl).1
  · exact (claim_C4 devSil 0 true 0 rfl).2.1
  · exact (claim_C4 devSil 0 true 0 rfl).2.2.1
  · exact (claim_C4 devSil 0 true 0 rfl).2.2.2.1
  · exact (claim_C4 devSil 0 true 0 rfl).2.2.2.2.2.2 .s16le rfl
      (by decide) 7 (by decide)

set_option maxRecDepth 8192 in
/-- Counterexample to C4 as stated: after a stream-stop trigger on a
playing device (substream still open, silence counter 0 — the state the
code is in right after STOP, before close), a completion callback is not
treated as a silence-fill cycle: it reads the PCM ring buffer (frame slot 0
receives the ring-buffer sample pair (5, -5), not (0, 0)) and emits a
period-elapsed notification. -/
theorem claim_C4_counterexample :
    (bcm2708_pcm_trigger devLate .STOP true 0).dev.i2s_dma_cookie = 0 ∧
    (bcm2708_i2s_dma_complete
        (bcm2708_pcm_trigger devLate .STOP true 0).dev 100).2 = 1 ∧
    (bcm2708_i2s_dma_complete
        (bcm2708_pcm_trigger devLate .STOP true 0).dev 100).1.spdif_buffer 0 =
      ⟨0, ((5 : Int), (-5 : Int))⟩ :=
  ⟨rfl, rfl, rfl⟩

/-- C6: in every completion-callback invocation the silence counter is
incremented only if it was already nonzero, and the callback never
transitions the counter from 0 to nonzero; among the control-path
operations, a stop trigger leaves the counter unchanged, a start trigger
exchanges it to 0, and only the explicit prepare control path
(`atomic_cmpxchg(&silence, 0, 1)`, line 376) performs the 0-to-nonzero
transition. -/
theorem claim_C6 (dev : bcm2708_i2s_dev) (residue : Nat) (rate : Nat)
    (format : snd_pcm_format) (sample_bits : Nat) (desc_ok : Bool)
    (new_cookie : Int) :
    ((bcm2708_i2s_dma_complete dev residue).1.silence =
      if dev.silence = 0 then 0
      else if dev.encode_frame.isSome then dev.silence + 1
      else dev.silence) ∧
    (bcm2708_pcm_trigger dev .STOP desc_ok new_cookie).dev.silence
        = dev.silence ∧
    (bcm2708_pcm_trigger dev .START desc_ok new_cookie).dev.silence = 0 ∧
    (dev.silence = 0 → cs3_of_rate rate ≠ none →
      encode_fn_of_format format ≠ none →
      (bcm2708_pcm_prepare dev rate format sample_bits desc_ok
        new_cookie).1.silence = 1) := by
  refine ⟨?_, ?_, ?_, ?_⟩
  · cases henc : dev.encode_frame with
    | none =>
      by_cases h0 : dev.silence = 0 <;>
        simp [bcm2708_i2s_dma_complete, henc, h0]
    | some f =>
      by_cases h0 : dev.silence = 0
      · cases hss : dev.ss with
        | none => simp [bcm2708_i2s_dma_complete, henc, hss, h0]
        | some s =>
          rw [dma_complete_pcm dev residue f s henc h0 hss]
          simp [h0]
      · rw [dma_complete_silence dev residue f henc h0]
        simp [h0, henc]
  · simp [bcm2708_pcm_trigger]
  · simp only [bcm2708_pcm_trigger]
    exact (prepare_and_submit_preserves _ desc_ok new_cookie).2.2.1
  · intro h0 hr hf
    cases hc3 : cs3_of_rate rate with
    | none => exact absurd hc3 hr
    | some c3 =>
      cases hcf : encode_fn_of_format format with
      | none => exact absurd hcf hf
      | some f =>
        simp only [bcm2708_pcm_prepare, hc3, hcf]
        rw [if_pos h0]
        exact (prepare_and_submit_preserves _ desc_ok new_cookie).2.2.1

/-- Witness for C6: the callback keeps a zero counter at zero, and a
prepare from a zero counter arms silence to 1. -/
theorem claim_C6_witness :
    devIdle.silence = 0 ∧ cs3_of_rate 48000 ≠ none ∧
    encode_fn_of_format .S16_LE ≠ none ∧
    (bcm2708_i2s_dma_complete devIdle 0).1.silence =
      (if devIdle.silence = 0 then 0
       else if devIdle.encode_frame.isSome then devIdle.silence + 1
       else devIdle.silence) ∧
    (bcm2708_pcm_prepare devIdle 48000 .S16_LE 16 true 3).1.silence = 1 := by
  refine ⟨rfl, by decide, by decide, ?_, ?_⟩
  · exact (claim_C6 devIdle 0 48000 .S16_LE 16 true 3).1
  · exact (claim_C6 devIdle 0 48000 .S16_LE 16 true 3).2.2.2 rfl
      (by decide) (by decide)

/-- C7: a prepare call with a sampling rate outside
{44100, 48000, 88200, 96000, 176400, 192000}, or with an unsupported
sample format, returns `-EINVAL` with the device state unchanged: no
channel-status bytes installed, no encoder function installed, and no
frames encoded. -/
theorem claim_C7 (dev : bcm2708_i2s_dev) (rate : Nat)
    (format : snd_pcm_format) (sample_bits : Nat) (desc_ok : Bool)
    (new_cookie : Int)
    (h : rate ∉ [44100, 48000, 88200, 96000, 176400, 192000] ∨
         ∃ c, format = snd_pcm_format.other c) :
    bcm2708_pcm_prepare dev rate format sample_bits desc_ok new_cookie
      = (dev, -22) := by
  rcases h with h | ⟨c, rfl⟩
  · have hc3 : cs3_of_rate rate = none := by
      simp only [List.mem_cons, List.not_mem_nil, or_false] at h
      push_neg at h
      obtain ⟨h1, h2, h3, h4, h5, h6⟩ := h
      simp [cs3_of_rate, h1, h2, h3, h4, h5, h6]
    simp [bcm2708_pcm_prepare, hc3]
  · cases hc3 : cs3_of_rate rate with
    | none => simp [bcm2708_pcm_prepare, hc3]
    | some c3 => simp [bcm2708_pcm_prepare, hc3, encode_fn_of_format]

/-- Witness for C7: an unsupported rate (32000) is rejected with the state
unchanged. -/
theorem claim_C7_witness :
    ((32000 : Nat) ∉ [44100, 48000, 88200, 96000, 176400, 192000] ∨
      ∃ c, snd_pcm_format.S16_LE = snd_pcm_format.other c) ∧
    bcm2708_pcm_prepare devIdle 32000 .S16_LE 16 true 3 = (devIdle, -22) :=
  ⟨Or.inl (by decide),
   claim_C7 devIdle 32000 .S16_LE 16 true 3 (Or.inl (by decide))⟩
